import Mathlib

/-!
Shallow embedding of the MIDI-controller input pipeline of the
`midi-controller` repository.

The embedded code comes from two places:

* `src/hooks/useMidiController.ts` — the compact `useController` hook:
  `applyCurve`, `reducer`, `transformValue`, the debounced-message effect,
  `updateDevices`, and the `onstatechange` handler.
* `src/components/UC33eController.tsx` — the `u33e` controller map and the
  verbose near-duplicate of the hook: `applyCurveTransformation`,
  `transformValue` (verbose), the debounced-message effect with its
  `try`/`catch` and `console.warn`, `updateConnectedDevices`, and the
  verbose `onstatechange` handler.

JavaScript numbers are modelled as real numbers (`ℝ`); `Math.round` is
round-half-up, which coincides with Mathlib's `round` (`round x = ⌊x + 1/2⌋`).
JS truthiness on the optional `step` field (`step ? … : value`) is modelled
as "present and nonzero"; truthiness on the optional `invert` field is
"present and true".  Object fields absent in the TypeScript optional types
are `Option.none`.  A `MIDIMessageEvent` whose `data` is `none` models an
event whose `data` member is not destructurable, making
`const [command, note, velocity] = message.data` throw — the only statement
in the debounced-message effect that can throw at runtime.
-/

/-- The three value-scaling curves of `ValueTransformer.curve`. -/
inductive Curve
  | linear
  | logarithmic
  | exponential
  deriving DecidableEq, Repr

/-- `ValueTransformer` from `useMidiController.ts`: every field is optional. -/
structure ValueTransformer where
  min? : Option ℝ
  max? : Option ℝ
  curve? : Option Curve
  step? : Option ℝ
  invert? : Option Bool

/-- `MIDIConnectionStatus` from `useMidiController.ts`. -/
inductive MIDIConnectionStatus
  | disconnected
  | connected
  | error
  deriving DecidableEq, Repr

/-- `MIDIDeviceInfo` from `useMidiController.ts`; `connection` is kept as the
raw string (`"open" | "closed" | "pending"`). -/
structure MIDIDeviceInfo where
  id : String
  name : String
  manufacturer : String
  connection : String
  deriving DecidableEq, Repr

/-- A Web MIDI input port as seen by `updateDevices` and `onstatechange`:
`name` and `manufacturer` may be null/empty, `portState` is
`event.port.state` (`"connected" | "disconnected"`). -/
structure MIDIPortInfo where
  id : String
  name : Option String
  manufacturer : Option String
  portState : String
  connection : String
  deriving DecidableEq, Repr

/-- `MIDIControllerAction` from `useMidiController.ts`. -/
structure MIDIControllerAction where
  controller : String
  value : ℝ

/-- A Web MIDI message event; `data` holds the destructured bytes
`[command, note, velocity]`, and `none` models a malformed event whose
destructuring throws. -/
structure MIDIMessageEvent where
  data : Option (ℕ × ℕ × ℕ)

/-- Console output of the hooks, used to compare the observable logging of
the two hook variants. -/
inductive LogEvent
  | warnNoMapping (note command : ℕ)
  | errorProcessing
  | logPortChange (name : Option String) (portState : String)
      (manufacturer : Option String)
  deriving DecidableEq, Repr

/-- The per-hook mutable state: the controller-value store (the reducer
state, a JS object), the connection status and the connected-device list. -/
structure HookState where
  state : String → Option ℝ
  status : MIDIConnectionStatus
  connectedDevices : List MIDIDeviceInfo

/-- Initial hook state: `useReducer(reducer, {})`, `useState('disconnected')`,
`useState([])`. -/
def initialHookState : HookState :=
  { state := fun _ => none
    status := .disconnected
    connectedDevices := [] }

/-- A hook state whose status is `connected`, used as a concrete input. -/
def connectedHookState : HookState :=
  { state := fun _ => none
    status := .connected
    connectedDevices := [] }

/-- `applyCurve` from `useMidiController.ts` (compact variant, if-chain):
logarithmic is `Math.log(1 + value * 9) / Math.log(10)`, exponential is
`(Math.exp(value) - 1) / (Math.E - 1)`, otherwise the value itself. -/
noncomputable def applyCurve (value : ℝ) (curve : Curve) : ℝ :=
  if curve = Curve.logarithmic then Real.log (1 + value * 9) / Real.log 10
  else if curve = Curve.exponential then (Real.exp value - 1) / (Real.exp 1 - 1)
  else value

/-- `applyCurveTransformation` from `UC33eController.tsx` (verbose variant,
switch statement); same arithmetic as `applyCurve`. -/
noncomputable def applyCurveTransformation (value : ℝ) (curve : Curve) : ℝ :=
  match curve with
  | Curve.logarithmic => Real.log (1 + value * 9) / Real.log 10
  | Curve.exponential => (Real.exp value - 1) / (Real.exp 1 - 1)
  | _ => value

/-- The `reducer` from both hook variants: object spread overriding one key,
`{ ...state, [action.controller]: action.value }`. -/
def reducer (state : String → Option ℝ) (action : MIDIControllerAction) :
    String → Option ℝ :=
  fun key => if key = action.controller then some action.value else state key

/-- The raw-value quantization of the debounced-message effect:
`Math.round((velocity / 127) * 1000) / 1000`. -/
noncomputable def rawNormalized (velocity : ℕ) : ℝ :=
  ((round ((velocity : ℝ) / 127 * 1000) : ℤ) : ℝ) / 1000

/-- `transformValue` from `useMidiController.ts` (compact variant).  The
defaults are `min = 0`, `max = 1`, `curve = 'linear'`; `invert ? 1 - raw :
raw` is truthiness on the optional boolean, and `step ? round(value / step) *
step : value` is truthiness on the optional number (absent or zero means no
quantization). -/
noncomputable def transformValue (valueTransformers : String → Option ValueTransformer)
    (controller : String) (rawValue : ℝ) : ℝ :=
  match valueTransformers controller with
  | none => rawValue
  | some transformer =>
    let mn := transformer.min?.getD 0
    let mx := transformer.max?.getD 1
    let curve := transformer.curve?.getD Curve.linear
    let value := if transformer.invert?.getD false then 1 - rawValue else rawValue
    let value := applyCurve value curve
    let value := mn + (mx - mn) * value
    match transformer.step? with
    | some s => if s ≠ 0 then ((round (value / s) : ℤ) : ℝ) * s else value
    | none => value

/-- `transformValue` from `UC33eController.tsx` (verbose variant); identical
to the compact one except that it calls `applyCurveTransformation`. -/
noncomputable def transformValueVerbose (valueTransformers : String → Option ValueTransformer)
    (controller : String) (rawValue : ℝ) : ℝ :=
  match valueTransformers controller with
  | none => rawValue
  | some transformer =>
    let mn := transformer.min?.getD 0
    let mx := transformer.max?.getD 1
    let curve := transformer.curve?.getD Curve.linear
    let value := if transformer.invert?.getD false then 1 - rawValue else rawValue
    let value := applyCurveTransformation value curve
    let value := mn + (mx - mn) * value
    match transformer.step? with
    | some s => if s ≠ 0 then ((round (value / s) : ℤ) : ℝ) * s else value
    | none => value

/-- JS `a || b` on a nullable string: `null` and the empty string are falsy. -/
def jsStringOr (s : Option String) (dflt : String) : String :=
  match s with
  | none => dflt
  | some str => if str = "" then dflt else str

/-- `updateDevices` from `useMidiController.ts` (compact variant): rebuilds
the device list in full from `midiAccess.inputs`, with
`input.name || 'Unknown Device'` and
`input.manufacturer || 'Unknown Manufacturer'`. -/
def updateDevices (inputs : List MIDIPortInfo) : List MIDIDeviceInfo :=
  inputs.map fun input =>
    { id := input.id
      name := jsStringOr input.name "Unknown Device"
      manufacturer := jsStringOr input.manufacturer "Unknown Manufacturer"
      connection := input.connection }

/-- `updateConnectedDevices` from `UC33eController.tsx` (verbose variant);
same body as `updateDevices`. -/
def updateConnectedDevices (inputs : List MIDIPortInfo) : List MIDIDeviceInfo :=
  inputs.map fun input =>
    { id := input.id
      name := jsStringOr input.name "Unknown Device"
      manufacturer := jsStringOr input.manufacturer "Unknown Manufacturer"
      connection := input.connection }

/-- The `midiAccess.onstatechange` handler of the compact hook:
`setStatus(event.port.state === 'connected' ? 'connected' : 'disconnected')`
followed by `updateDevices(midiAccess)` over the current inputs. -/
def onStateChange (inputs : List MIDIPortInfo) (eventPort : MIDIPortInfo)
    (st : HookState) : HookState :=
  { st with
    status := if eventPort.portState = "connected"
      then MIDIConnectionStatus.connected else MIDIConnectionStatus.disconnected
    connectedDevices := updateDevices inputs }

/-- The `midiAccess.onstatechange` handler of the verbose hook: same state
update plus a `console.log` of the changed port. -/
def onStateChangeVerbose (inputs : List MIDIPortInfo) (eventPort : MIDIPortInfo)
    (st : HookState) : HookState × List LogEvent :=
  ({ st with
      status := if eventPort.portState = "connected"
        then MIDIConnectionStatus.connected else MIDIConnectionStatus.disconnected
      connectedDevices := updateConnectedDevices inputs },
   [LogEvent.logPortChange eventPort.name eventPort.portState eventPort.manufacturer])

/-- The debounced-message effect of the compact hook (`useMidiController.ts`):
destructure `debouncedMessage.data`, look up `controllers[note]?.[command]`,
and when mapped, dispatch the transformed value.  No `try`/`catch` and no
logging: the returned `Bool` is `true` when the destructuring throws and the
exception escapes the effect uncaught. -/
noncomputable def processMessageCompact (controllers : ℕ → ℕ → Option String)
    (valueTransformers : String → Option ValueTransformer)
    (st : HookState) (debouncedMessage : Option MIDIMessageEvent) :
    HookState × List LogEvent × Bool :=
  match debouncedMessage with
  | none => (st, [], false)
  | some message =>
    match message.data with
    | none => (st, [], true)
    | some (command, note, velocity) =>
      match controllers note command with
      | none => (st, [], false)
      | some controllerId =>
        let rawValue := rawNormalized velocity
        let transformedValue := transformValue valueTransformers controllerId rawValue
        ({ st with state := reducer st.state ⟨controllerId, transformedValue⟩ },
         [], false)

/-- The debounced-message effect of the verbose hook (`UC33eController.tsx`):
inside `try`, an unmapped pair is reported with `console.warn` and dropped;
`catch` logs `console.error` and does `setStatus('error')`.  No exception
ever escapes, so the `Bool` component is always `false`. -/
noncomputable def processMessageVerbose (controllers : ℕ → ℕ → Option String)
    (valueTransformers : String → Option ValueTransformer)
    (st : HookState) (debouncedMessage : Option MIDIMessageEvent) :
    HookState × List LogEvent × Bool :=
  match debouncedMessage with
  | none => (st, [], false)
  | some message =>
    match message.data with
    | none => ({ st with status := MIDIConnectionStatus.error },
               [LogEvent.errorProcessing], false)
    | some (command, note, velocity) =>
      match controllers note command with
      | none => (st, [LogEvent.warnNoMapping note command], false)
      | some controllerId =>
        let rawValue := rawNormalized velocity
        let transformedValue := transformValueVerbose valueTransformers controllerId rawValue
        ({ st with state := reducer st.state ⟨controllerId, transformedValue⟩ },
         [], false)

/-- The `u33e` controller map of `UC33eController.tsx`, verbatim: outer key =
note (data1) byte, inner key = command (status) byte. -/
def u33e : List (ℕ × List (ℕ × String)) :=
  [ (13, [(176, "C26"), (177, "C27"), (178, "C28"), (179, "C29"),
          (180, "C30"), (181, "C31"), (182, "C31"), (183, "C33")]),
    (12, [(176, "C18"), (177, "C19"), (178, "C20"), (179, "C21"),
          (180, "C22"), (181, "C23"), (182, "C24"), (183, "C25")]),
    (10, [(176, "C10"), (177, "C11"), (178, "C12"), (179, "C13"),
          (180, "C14"), (181, "C15"), (182, "C16"), (183, "C17")]),
    (7,  [(176, "F1"), (177, "F2"), (178, "F3"), (179, "F4"),
          (180, "F5"), (181, "F6"), (182, "F7"), (183, "F8")]),
    (28, [(176, "F9")]) ]

/-- Two-level object lookup `controllers[note]?.[command]`. -/
def lookupController (m : List (ℕ × List (ℕ × String))) (note command : ℕ) :
    Option String :=
  match m.find? (fun p => p.1 == note) with
  | none => none
  | some (_, inner) => (inner.find? (fun p => p.1 == command)).map (fun p => p.2)

/-- The transformer config with every optional field absent (`{}`). -/
def emptyTransformer : ValueTransformer :=
  { min? := none, max? := none, curve? := none, step? := none, invert? := none }

/-- A transformer config whose `step` is 0. -/
def zeroStepTransformer : ValueTransformer :=
  { min? := none, max? := none, curve? := none, step? := some 0, invert? := none }

/-- An invalid transformer config with `min = 5 ≥ 1 = max`; its key is
`"C26"`. -/
def badTransformers : String → Option ValueTransformer :=
  fun c => if c = "C26"
    then some { min? := some 5, max? := some 1, curve? := none,
                step? := none, invert? := none }
    else none

/-- The claim's own description of a curve, written from the spec text of
§4.2 for the refinement comparison of claim C2 (`linear(v)=v`,
`logarithmic(v)=log(1+9v)/log(10)`, `exponential(v)=(e^v-1)/(e-1)`). -/
noncomputable def specCurve (curve : Curve) (v : ℝ) : ℝ :=
  match curve with
  | Curve.linear => v
  | Curve.logarithmic => Real.log (1 + 9 * v) / Real.log 10
  | Curve.exponential => (Real.exp v - 1) / (Real.exp 1 - 1)

/-- The claim's own description of the transform pipeline, written from the
claim/spec words for the refinement comparison of claim C2: invert, then
curve, then affine map, then — whenever a step is configured — quantization
`round(value/step)*step`. -/
noncomputable def specTransform (t : ValueTransformer) (value : ℝ) : ℝ :=
  let v1 := if t.invert?.getD false then 1 - value else value
  let v2 := specCurve (t.curve?.getD Curve.linear) v1
  let v3 := t.min?.getD 0 + (t.max?.getD 1 - t.min?.getD 0) * v2
  match t.step? with
  | some s => ((round (v3 / s) : ℤ) : ℝ) * s
  | none => v3

/-- Modelled from the spec: the debounce stage is `useDebounce` from the
external `@uidotdev/usehooks` package and its code is not part of this
repository.  Per §4.3/§5: each arrival cancels the pending timer and
schedules delivery of its own payload at its arrival time plus the window;
an event is delivered exactly when no later event arrives strictly before
its timer fires (trailing-edge debounce).  Events are `(arrival time,
payload)` pairs in arrival order; the result lists `(delivery time,
payload)` pairs. -/
def debounceDeliveries (w : ℕ) : List (ℕ × α) → List (ℕ × α)
  | [] => []
  | e :: rest =>
    match rest with
    | [] => [(e.1 + w, e.2)]
    | f :: _ =>
      if f.1 < e.1 + w then debounceDeliveries w rest
      else (e.1 + w, e.2) :: debounceDeliveries w rest

/-- The two curve helpers of the two hook variants compute the same
function. -/
theorem applyCurve_eq_applyCurveTransformation (v : ℝ) (c : Curve) :
    applyCurve v c = applyCurveTransformation v c := by
  cases c <;> simp [applyCurve, applyCurveTransformation]

/-- The two `transformValue` implementations compute the same function. -/
theorem transformValue_eq_transformValueVerbose
    (vt : String → Option ValueTransformer) (c : String) (raw : ℝ) :
    transformValue vt c raw = transformValueVerbose vt c raw := by
  unfold transformValue transformValueVerbose
  cases vt c with
  | none => rfl
  | some t => simp [applyCurve_eq_applyCurveTransformation]

/-- Velocity 127 normalizes to 1. -/
theorem rawNormalized_127 : rawNormalized 127 = 1 := by
  unfold rawNormalized
  norm_num

/-- Claim C10: a present-but-empty transformer config (`{}`) yields the
identity transform — the defaults `min = 0`, `max = 1`, linear curve, no
step, no invert reproduce the raw value — and therefore agrees with having
no config at all. -/
theorem empty_config_is_identity (c : String) (raw : ℝ) :
    transformValue (fun _ => some emptyTransformer) c raw = raw ∧
    transformValue (fun _ => none) c raw = raw := by
  constructor
  · simp [transformValue, emptyTransformer, applyCurve]
  · simp [transformValue]

/-- Claim C3 (code evaluation): in the shipped `u33e` profile the pair
(status 182, data1 13) maps to `"C31"`, the same identifier as
(status 181, data1 13), and no pair at all maps to `"C32"` — so the
identifiers C10–C33 are not each covered exactly once. -/
theorem u33e_duplicates_C31_and_misses_C32 :
    lookupController u33e 13 182 = some "C31" ∧
    lookupController u33e 13 181 = some "C31" ∧
    ∀ e ∈ u33e, ∀ p ∈ e.2, p.2 ≠ "C32" := by
  decide

/-- Claim C1 (amended): a device hot-plug notification rebuilds
`connectedDevices` in full from the current inputs — so a device no longer
listed among the inputs is absent from the next snapshot — but the
process-wide status is recomputed from the changed port's own state:
`connected` if that port's state is `"connected"`, otherwise `disconnected`;
a detachment therefore flips status to `disconnected` even while subsystem
access remains valid. -/
theorem statechange_rebuild_and_status (inputs : List MIDIPortInfo)
    (eventPort : MIDIPortInfo) (st : HookState) (dId : String)
    (hgone : dId ∉ inputs.map (fun p => p.id)) :
    (onStateChange inputs eventPort st).connectedDevices = updateDevices inputs ∧
    (∀ d ∈ (onStateChange inputs eventPort st).connectedDevices, d.id ≠ dId) ∧
    (onStateChange inputs eventPort st).status =
      (if eventPort.portState = "connected" then MIDIConnectionStatus.connected
       else MIDIConnectionStatus.disconnected) := by
  refine ⟨rfl, ?_, rfl⟩
  intro d hd
  simp only [onStateChange, updateDevices, List.mem_map] at hd
  obtain ⟨input, hin, rfl⟩ := hd
  intro hEq
  apply hgone
  rw [List.mem_map]
  exact ⟨input, hin, hEq⟩

/-- Witness for `statechange_rebuild_and_status` at a concrete input: one
remaining input port, a detached device `"gone"`, a `"disconnected"`
notification. -/
theorem statechange_rebuild_and_status_witness :
    ("gone" ∉ [(⟨"d1", some "Dev", some "Acme", "connected", "open"⟩ : MIDIPortInfo)].map
        (fun p => p.id)) ∧
    ((onStateChange [⟨"d1", some "Dev", some "Acme", "connected", "open"⟩]
        ⟨"gone", none, none, "disconnected", "closed"⟩
        connectedHookState).connectedDevices =
      updateDevices [⟨"d1", some "Dev", some "Acme", "connected", "open"⟩] ∧
     (∀ d ∈ (onStateChange [⟨"d1", some "Dev", some "Acme", "connected", "open"⟩]
        ⟨"gone", none, none, "disconnected", "closed"⟩
        connectedHookState).connectedDevices, d.id ≠ "gone") ∧
     (onStateChange [⟨"d1", some "Dev", some "Acme", "connected", "open"⟩]
        ⟨"gone", none, none, "disconnected", "closed"⟩
        connectedHookState).status =
      (if (⟨"gone", none, none, "disconnected", "closed"⟩ : MIDIPortInfo).portState = "connected"
       then MIDIConnectionStatus.connected else MIDIConnectionStatus.disconnected)) :=
  ⟨by simp,
   statechange_rebuild_and_status
     [⟨"d1", some "Dev", some "Acme", "connected", "open"⟩]
     ⟨"gone", none, none, "disconnected", "closed"⟩
     connectedHookState "gone" (by simp)⟩

/-- Counterexample to claim C1 as stated: with subsystem access valid, a
disconnect notification for a device flips the status away from
`connected`. -/
theorem statechange_flips_status_cex :
    (onStateChange [] ⟨"d1", none, none, "disconnected", "closed"⟩
        connectedHookState).status ≠ connectedHookState.status := by
  simp [onStateChange, connectedHookState]

/-- Claim C7 (amended): a message whose (status, data1) pair is unmapped
leaves the hook state (controller values, status, devices) entirely
unchanged in both hook variants; the verbose hook emits exactly one
warning-level log event for it, while the compact hook emits nothing at
all. -/
theorem unmapped_message_drops (controllers : ℕ → ℕ → Option String)
    (vt : String → Option ValueTransformer) (st : HookState)
    (note command velocity : ℕ)
    (hunmapped : controllers note command = none) :
    (processMessageCompact controllers vt st (some ⟨some (command, note, velocity)⟩)).1 = st ∧
    (processMessageCompact controllers vt st (some ⟨some (command, note, velocity)⟩)).2.1 = [] ∧
    (processMessageVerbose controllers vt st (some ⟨some (command, note, velocity)⟩)).1 = st ∧
    (processMessageVerbose controllers vt st (some ⟨some (command, note, velocity)⟩)).2.1 =
      [LogEvent.warnNoMapping note command] := by
  simp [processMessageCompact, processMessageVerbose, hunmapped]

/-- Witness for `unmapped_message_drops` at a concrete input: the empty
controller map and the message (command 176, note 99, velocity 64). -/
theorem unmapped_message_drops_witness :
    ((fun _ _ => none) 99 176 = (none : Option String)) ∧
    ((processMessageCompact (fun _ _ => none) (fun _ => none) initialHookState
        (some ⟨some (176, 99, 64)⟩)).1 = initialHookState ∧
     (processMessageCompact (fun _ _ => none) (fun _ => none) initialHookState
        (some ⟨some (176, 99, 64)⟩)).2.1 = [] ∧
     (processMessageVerbose (fun _ _ => none) (fun _ => none) initialHookState
        (some ⟨some (176, 99, 64)⟩)).1 = initialHookState ∧
     (processMessageVerbose (fun _ _ => none) (fun _ => none) initialHookState
        (some ⟨some (176, 99, 64)⟩)).2.1 = [LogEvent.warnNoMapping 99 176]) :=
  ⟨rfl, unmapped_message_drops (fun _ _ => none) (fun _ => none)
    initialHookState 99 176 64 rfl⟩

/-- Counterexample to claim C7 as stated: in the compact hook an unmapped
message produces no log event at all — no warning is emitted. -/
theorem unmapped_no_warning_cex :
    (processMessageCompact (fun _ _ => none) (fun _ => none) connectedHookState
        (some ⟨some (176, 99, 64)⟩)).2.1 = [] := by
  simp [processMessageCompact]

/-- Claim C4 (amended): the compact hook's message effect never changes the
connection status for any message whatsoever; in the verbose hook a mapping
error leaves the status unchanged, but a processing exception is caught and
sets the status to `error`. -/
theorem message_status_policy (controllers : ℕ → ℕ → Option String)
    (vt : String → Option ValueTransformer) (st : HookState)
    (note command velocity : ℕ)
    (hunmapped : controllers note command = none) :
    (∀ msg, (processMessageCompact controllers vt st msg).1.status = st.status) ∧
    (processMessageVerbose controllers vt st
        (some ⟨some (command, note, velocity)⟩)).1.status = st.status ∧
    (processMessageVerbose controllers vt st (some ⟨none⟩)).1.status =
      MIDIConnectionStatus.error := by
  refine ⟨?_, ?_, rfl⟩
  · intro msg
    match msg with
    | none => rfl
    | some ⟨none⟩ => rfl
    | some ⟨some (c, n, v)⟩ =>
      simp only [processMessageCompact]
      cases controllers n c <;> rfl
  · simp [processMessageVerbose, hunmapped]

/-- Witness for `message_status_policy` at a concrete input: the empty
controller map, the pair (note 99, command 176). -/
theorem message_status_policy_witness :
    ((fun _ _ => none) 99 176 = (none : Option String)) ∧
    ((∀ msg, (processMessageCompact (fun _ _ => none) (fun _ => none)
        connectedHookState msg).1.status = connectedHookState.status) ∧
     (processMessageVerbose (fun _ _ => none) (fun _ => none) connectedHookState
        (some ⟨some (176, 99, 64)⟩)).1.status = connectedHookState.status ∧
     (processMessageVerbose (fun _ _ => none) (fun _ => none) connectedHookState
        (some ⟨none⟩)).1.status = MIDIConnectionStatus.error) :=
  ⟨rfl, message_status_policy (fun _ _ => none) (fun _ => none)
    connectedHookState 99 176 64 rfl⟩

/-- Counterexample to claim C4 as stated: in the verbose hook a processing
exception while handling a single message changes the process-wide status
(from `connected` to `error`), even though no subsystem access failure
occurred. -/
theorem exception_changes_status_cex :
    (processMessageVerbose (fun _ _ => none) (fun _ => none) connectedHookState
        (some ⟨none⟩)).1.status ≠ connectedHookState.status := by
  simp [processMessageVerbose, connectedHookState]

/-- Claim C5 (amended): the hook performs no configuration validation at
all — any transformer config, valid or not, is accepted, and every mapped
message is transformed under whatever config is present at the moment it is
processed. -/
theorem mapped_message_always_transformed (controllers : ℕ → ℕ → Option String)
    (vt : String → Option ValueTransformer) (st : HookState)
    (note command velocity : ℕ) (ctrlId : String)
    (hmap : controllers note command = some ctrlId) :
    (processMessageCompact controllers vt st
        (some ⟨some (command, note, velocity)⟩)).1.state ctrlId =
      some (transformValue vt ctrlId (rawNormalized velocity)) := by
  simp [processMessageCompact, hmap, reducer]

/-- Witness for `mapped_message_always_transformed` at a concrete input: the
shipped profile, the invalid config `min = 5 ≥ 1 = max` on `"C26"`, the
message (status 176, data1 13, velocity 127). -/
theorem mapped_message_always_transformed_witness :
    lookupController u33e 13 176 = some "C26" ∧
    (processMessageCompact (lookupController u33e) badTransformers initialHookState
        (some ⟨some (176, 13, 127)⟩)).1.state "C26" =
      some (transformValue badTransformers "C26" (rawNormalized 127)) :=
  ⟨by decide, mapped_message_always_transformed (lookupController u33e)
    badTransformers initialHookState 13 176 127 "C26" (by decide)⟩

/-- Counterexample to claim C5 as stated: the invalid config `min = 5 ≥ 1 =
max` is not rejected at configuration-load time — a message is transformed
under it and its transformed value (here `5 + (1 - 5) * 1 = 1`) is stored. -/
theorem invalid_config_transforms_cex :
    (processMessageCompact (lookupController u33e) badTransformers initialHookState
        (some ⟨some (176, 13, 127)⟩)).1.state "C26" = some 1 := by
  have hmap : lookupController u33e 13 176 = some "C26" := by decide
  simp only [processMessageCompact, hmap, reducer]
  simp only [transformValue, badTransformers, rawNormalized_127]
  simp [applyCurve]

/-- Claim C2 (amended): for every config and velocity the transform equals
the spec pipeline — invert, then curve, then affine map, then quantization —
provided quantization is read as applying only when `step` is configured
*and nonzero* (JS truthiness: a configured step of 0 is treated as absent
and quantization is skipped). -/
theorem transform_follows_pipeline (vt : String → Option ValueTransformer)
    (c : String) (t : ValueTransformer) (velocity : ℕ)
    (hc : vt c = some t) (hstep : ∀ s, t.step? = some s → s ≠ 0) :
    transformValue vt c (rawNormalized velocity) =
      specTransform t (rawNormalized velocity) := by
  have hcurve : ∀ (cv : Curve) (v : ℝ), applyCurve v cv = specCurve cv v := by
    intro cv v
    cases cv <;> simp [applyCurve, specCurve, mul_comm]
  obtain ⟨m, M, cv, stp, inv⟩ := t
  unfold transformValue specTransform
  rw [hc]
  cases stp with
  | none => simp [hcurve]
  | some s =>
    have hs : s ≠ 0 := hstep s rfl
    simp [hcurve, hs]

/-- Witness for `transform_follows_pipeline` at a concrete input: the empty
config and velocity 64. -/
theorem transform_follows_pipeline_witness :
    ((fun _ : String => some emptyTransformer) "x" = some emptyTransformer) ∧
    transformValue (fun _ => some emptyTransformer) "x" (rawNormalized 64) =
      specTransform emptyTransformer (rawNormalized 64) :=
  ⟨rfl, transform_follows_pipeline (fun _ => some emptyTransformer) "x"
    emptyTransformer 64 rfl (by simp [emptyTransformer])⟩

/-- Counterexample to claim C2 as stated: with a configured step of 0 and
velocity 127 the code skips quantization and returns 1, while the claim's
quantization formula `round(value/step)*step` yields 0 — the code treats a
zero step as "no step" instead of quantizing by it. -/
theorem transform_pipeline_zero_step_cex :
    transformValue (fun _ => some zeroStepTransformer) "c" (rawNormalized 127) = 1 ∧
    specTransform zeroStepTransformer (rawNormalized 127) = 0 ∧
    transformValue (fun _ => some zeroStepTransformer) "c" (rawNormalized 127) ≠
      specTransform zeroStepTransformer (rawNormalized 127) := by
  have h1 : transformValue (fun _ => some zeroStepTransformer) "c"
      (rawNormalized 127) = 1 := by
    simp [transformValue, zeroStepTransformer, rawNormalized_127, applyCurve]
  have h2 : specTransform zeroStepTransformer (rawNormalized 127) = 0 := by
    simp [specTransform, zeroStepTransformer, rawNormalized_127, specCurve]
  refine ⟨h1, h2, ?_⟩
  rw [h1, h2]
  norm_num

/-- Claim C9 (amended): the two hook variants agree on the resulting hook
state (controller values, status, devices) for every well-formed input, and
their device-list rebuilds and state-change updates coincide; they are not
observationally identical, though — they diverge in logging (the verbose
hook warns on unmapped pairs and logs port changes) and in status on a
processing exception. -/
theorem hooks_agree (controllers : ℕ → ℕ → Option String)
    (vt : String → Option ValueTransformer) (st : HookState)
    (msg : Option MIDIMessageEvent) (inputs : List MIDIPortInfo)
    (eventPort : MIDIPortInfo)
    (hwf : ∀ e, msg = some e → e.data ≠ none) :
    (processMessageCompact controllers vt st msg).1 =
      (processMessageVerbose controllers vt st msg).1 ∧
    updateDevices inputs = updateConnectedDevices inputs ∧
    onStateChange inputs eventPort st =
      (onStateChangeVerbose inputs eventPort st).1 := by
  refine ⟨?_, rfl, rfl⟩
  match msg with
  | none => rfl
  | some e =>
    cases he : e.data with
    | none => exact absurd he (hwf e rfl)
    | some bytes =>
      obtain ⟨c, n, v⟩ := bytes
      simp only [processMessageCompact, processMessageVerbose, he]
      cases controllers n c with
      | none => rfl
      | some ctrlId => simp [transformValue_eq_transformValueVerbose]

/-- Witness for `hooks_agree` at a concrete input: the shipped profile and
the well-formed message (status 176, data1 13, velocity 127). -/
theorem hooks_agree_witness :
    (∀ e, (some ⟨some (176, 13, 127)⟩ : Option MIDIMessageEvent) = some e →
      e.data ≠ none) ∧
    ((processMessageCompact (lookupController u33e) (fun _ => none)
        initialHookState (some ⟨some (176, 13, 127)⟩)).1 =
      (processMessageVerbose (lookupController u33e) (fun _ => none)
        initialHookState (some ⟨some (176, 13, 127)⟩)).1 ∧
     updateDevices [] = updateConnectedDevices [] ∧
     onStateChange [] ⟨"d1", none, none, "connected", "open"⟩ initialHookState =
      (onStateChangeVerbose [] ⟨"d1", none, none, "connected", "open"⟩
        initialHookState).1) :=
  ⟨by intro e he; cases he; simp,
   hooks_agree (lookupController u33e) (fun _ => none) initialHookState
     (some ⟨some (176, 13, 127)⟩) [] ⟨"d1", none, none, "connected", "open"⟩
     (by intro e he; cases he; simp)⟩

/-- Counterexample to claim C9 as stated: on the same unmapped message the
two hooks produce different observable log events — the verbose hook emits a
warning, the compact hook emits nothing — so they are not behaviorally
equivalent including observability. -/
theorem hooks_differ_cex :
    (processMessageVerbose (fun _ _ => none) (fun _ => none) connectedHookState
        (some ⟨some (176, 99, 64)⟩)).2.1 ≠
      (processMessageCompact (fun _ _ => none) (fun _ => none) connectedHookState
        (some ⟨some (176, 99, 64)⟩)).2.1 := by
  simp [processMessageCompact, processMessageVerbose]

/-- Claim C8: with a positive window, a nonempty burst of events each
arriving strictly within one window of its predecessor (and in strictly
increasing time order) produces exactly one delivery, carrying the payload
of the last event, at the last arrival time plus the window — strictly
after the first arrival, never at window start. -/
theorem debounce_delivers_latest {α : Type} (w : ℕ) (hw : 0 < w)
    (events : List (ℕ × α)) :
    ∀ (hne : events ≠ []),
      events.Chain' (fun e f => e.1 < f.1 ∧ f.1 < e.1 + w) →
      debounceDeliveries w events =
        [((events.getLast hne).1 + w, (events.getLast hne).2)] ∧
      (events.head hne).1 < (events.getLast hne).1 + w := by
  induction events with
  | nil => intro hne _; exact absurd rfl hne
  | cons e rest ih =>
    intro hne hchain
    cases rest with
    | nil =>
      refine ⟨rfl, ?_⟩
      simp only [List.head_cons, List.getLast_singleton]
      omega
    | cons f rest2 =>
      rw [List.chain'_cons] at hchain
      obtain ⟨⟨hef, hfw⟩, hchain2⟩ := hchain
      have hne2 : f :: rest2 ≠ [] := by simp
      obtain ⟨ihEq, ihHead⟩ := ih hne2 hchain2
      have hL : (e :: f :: rest2).getLast hne = (f :: rest2).getLast hne2 :=
        List.getLast_cons hne2
      have hstep : debounceDeliveries w (e :: f :: rest2) =
          debounceDeliveries w (f :: rest2) := by
        simp only [debounceDeliveries]
        rw [if_pos hfw]
      refine ⟨?_, ?_⟩
      · rw [hstep, hL]
        exact ihEq
      · have hfhead : ((f :: rest2).head hne2).1 = f.1 := rfl
        rw [hL]
        simp only [List.head_cons]
        omega

/-- Witness for `debounce_delivers_latest` at a concrete input: window 5,
three events at times 0, 2, 4; the single delivery is the last payload at
time 9. -/
theorem debounce_delivers_latest_witness :
    debounceDeliveries 5 [(0, 10), (2, 20), (4, 30)] = [(9, (30 : ℕ))] := by
  have h := debounce_delivers_latest 5 (by decide) [(0, 10), (2, 20), (4, 30)]
    (by decide) (by norm_num [List.chain'_cons, List.chain'_singleton])
  exact h.1

/-- Each curve maps the unit interval into itself. -/
theorem applyCurve_mem_unit (cv : Curve) (v : ℝ) (h0 : 0 ≤ v) (h1 : v ≤ 1) :
    0 ≤ applyCurve v cv ∧ applyCurve v cv ≤ 1 := by
  cases cv with
  | linear => simp [applyCurve]; constructor <;> linarith
  | logarithmic =>
    simp only [applyCurve, reduceCtorEq, if_true, if_false]
    have hlog10 : 0 < Real.log 10 := Real.log_pos (by norm_num)
    have h1v : (1 : ℝ) ≤ 1 + v * 9 := by nlinarith
    have h10 : 1 + v * 9 ≤ 10 := by nlinarith
    constructor
    · exact div_nonneg (Real.log_nonneg h1v) hlog10.le
    · rw [div_le_one hlog10]
      exact Real.log_le_log (by linarith) h10
  | exponential =>
    simp only [applyCurve, reduceCtorEq, if_true, if_false]
    have he : (1 : ℝ) < Real.exp 1 := by
      have h := Real.exp_lt_exp.mpr (zero_lt_one (α := ℝ))
      rwa [Real.exp_zero] at h
    have h1e : (1 : ℝ) ≤ Real.exp v := Real.one_le_exp h0
    have hev : Real.exp v ≤ Real.exp 1 := Real.exp_le_exp.mpr h1
    constructor
    · exact div_nonneg (by linarith) (by linarith)
    · rw [div_le_one (by linarith)]
      linarith

/-- Claim C6: for every valid config (min < max, any curve, any invert, step
absent or positive) and raw input in [0,1], the transform's output lies in
[min, max] when no step is configured, and within one step of [min, max]
when a step is configured.  Determinism is definitional: the embedded
`transformValue` is a pure function of its arguments. -/
theorem transform_output_within_range (vt : String → Option ValueTransformer)
    (c : String) (t : ValueTransformer) (raw : ℝ)
    (hc : vt c = some t) (h0 : 0 ≤ raw) (h1 : raw ≤ 1)
    (hlt : t.min?.getD 0 < t.max?.getD 1)
    (hstep : ∀ s, t.step? = some s → 0 < s) :
    (t.step? = none →
      t.min?.getD 0 ≤ transformValue vt c raw ∧
      transformValue vt c raw ≤ t.max?.getD 1) ∧
    (∀ s, t.step? = some s →
      t.min?.getD 0 - s ≤ transformValue vt c raw ∧
      transformValue vt c raw ≤ t.max?.getD 1 + s) := by
  obtain ⟨m, M, cv, stp, inv⟩ := t
  have hlt' : m.getD 0 < M.getD 1 := hlt
  simp only [transformValue, hc]
  set v1 := (if inv.getD false = true then 1 - raw else raw) with hv1
  have hv10 : 0 ≤ v1 := by rw [hv1]; split <;> linarith
  have hv11 : v1 ≤ 1 := by rw [hv1]; split <;> linarith
  obtain ⟨hc0, hc1⟩ := applyCurve_mem_unit (cv.getD Curve.linear) v1 hv10 hv11
  set v2 := applyCurve v1 (cv.getD Curve.linear) with hv2
  set mn := m.getD 0 with hmn
  set mx := M.getD 1 with hmx
  have hv3l : mn ≤ mn + (mx - mn) * v2 := by nlinarith
  have hv3r : mn + (mx - mn) * v2 ≤ mx := by nlinarith
  cases stp with
  | none =>
    exact ⟨fun _ => ⟨hv3l, hv3r⟩, by simp⟩
  | some s =>
    have hs : 0 < s := hstep s rfl
    refine ⟨by simp, fun s2 hs2 => ?_⟩
    obtain rfl : s = s2 := Option.some_inj.mp hs2
    have hne : s ≠ 0 := ne_of_gt hs
    set v3 := mn + (mx - mn) * v2 with hv3
    dsimp only
    rw [if_pos hne]
    have hq := abs_sub_round (v3 / s)
    obtain ⟨ha, hb⟩ := abs_le.mp hq
    have hmul1 : (v3 / s - ((round (v3 / s) : ℤ) : ℝ)) * s ≤ (1 / 2) * s :=
      mul_le_mul_of_nonneg_right hb hs.le
    have hmul2 : (-(1 / 2) : ℝ) * s ≤ (v3 / s - ((round (v3 / s) : ℤ) : ℝ)) * s :=
      mul_le_mul_of_nonneg_right ha hs.le
    have hcancel : v3 / s * s = v3 := div_mul_cancel₀ v3 hne
    rw [sub_mul, hcancel] at hmul1 hmul2
    constructor
    · linarith
    · linarith

/-- Witness for `transform_output_within_range` at a concrete input: the
empty config (defaults min 0 < max 1, no step) and raw value 1/2. -/
theorem transform_output_within_range_witness :
    ((fun _ : String => some emptyTransformer) "x" = some emptyTransformer) ∧
    (0 : ℝ) ≤ 1 / 2 ∧ (1 / 2 : ℝ) ≤ 1 ∧
    emptyTransformer.min?.getD 0 < emptyTransformer.max?.getD 1 ∧
    ((emptyTransformer.step? = none →
      emptyTransformer.min?.getD 0 ≤
          transformValue (fun _ => some emptyTransformer) "x" (1 / 2) ∧
      transformValue (fun _ => some emptyTransformer) "x" (1 / 2) ≤
          emptyTransformer.max?.getD 1) ∧
     (∀ s, emptyTransformer.step? = some s →
      emptyTransformer.min?.getD 0 - s ≤
          transformValue (fun _ => some emptyTransformer) "x" (1 / 2) ∧
      transformValue (fun _ => some emptyTransformer) "x" (1 / 2) ≤
          emptyTransformer.max?.getD 1 + s)) :=
  ⟨rfl, by norm_num, by norm_num, by norm_num [emptyTransformer],
   transform_output_within_range (fun _ => some emptyTransformer) "x"
     emptyTransformer (1 / 2) rfl (by norm_num) (by norm_num)
     (by norm_num [emptyTransformer]) (by simp [emptyTransformer])⟩
